import Mathlib

set_option maxHeartbeats 1000000
set_option maxRecDepth 100000

namespace Autograde

/-! Shallow embedding of the chatbot autograder
    (`public_assignments/a2_autograde_chatbot.py`).

    The Python syntax-tree fragment relevant to the analyzer is modelled as
    the inductive types below; each checker function of the autograder is
    translated to a Lean function over this model.  The execution harness
    (`run_program_with_inputs`) is modelled over interaction trees (`Prog`),
    with ambient randomness made explicit as an oracle argument. -/

inductive CmpOp where
  | eq | ne | lt | le | gt | ge | inOp | notInOp | isOp | isNotOp
deriving DecidableEq

inductive BoolKind where
  | andOp | orOp
deriving DecidableEq

inductive BinKind where
  | add | sub | mult | otherB
deriving DecidableEq

inductive UnKind where
  | notOp | negOp | otherU
deriving DecidableEq

/-- Expressions of the modelled syntax-tree (`ast.expr`). -/
inductive Expr where
  | name (id : String)
  | constStr (s : String)
  | constBool (b : Bool)
  | constInt (n : Int)
  | constNone
  | call (func : Expr) (args : List Expr)
  | attribute (value : Expr) (attr : String)
  | boolOp (op : BoolKind) (values : List Expr)
  | compare (left : Expr) (ops : List CmpOp) (comparators : List Expr)
  | binOp (left : Expr) (op : BinKind) (right : Expr)
  | unaryOp (op : UnKind) (operand : Expr)
  | listLit (elts : List Expr)

/-- Statements of the modelled syntax-tree (`ast.stmt`).
    `ifStmt` carries test, body and orelse exactly as `ast.If`. -/
inductive Stmt where
  | exprStmt (e : Expr)
  | assign (targets : List Expr) (value : Expr)
  | annAssign (target : Expr) (value : Option Expr)
  | ifStmt (test : Expr) (body : List Stmt) (orelse : List Stmt)
  | whileStmt (test : Expr) (body : List Stmt) (orelse : List Stmt)
  | forStmt (target : Expr) (iter : Expr) (body : List Stmt) (orelse : List Stmt)
  | importStmt (names : List String)
  | importFrom (module : String) (names : List String)
  | passStmt

/-- A parsed module (`ast.Module`) is its list of top-level statements. -/
abbrev Module := List Stmt

mutual

/-- All expression nodes reachable from an expression, the expression itself
    included (the expression part of `ast.walk`). -/
def exprWalk : Expr → List Expr
  | .name id => [.name id]
  | .constStr s => [.constStr s]
  | .constBool b => [.constBool b]
  | .constInt n => [.constInt n]
  | .constNone => [.constNone]
  | .call f args => .call f args :: (exprWalk f ++ exprWalkList args)
  | .attribute v a => .attribute v a :: exprWalk v
  | .boolOp op vs => .boolOp op vs :: exprWalkList vs
  | .compare l ops rs => .compare l ops rs :: (exprWalk l ++ exprWalkList rs)
  | .binOp l op r => .binOp l op r :: (exprWalk l ++ exprWalk r)
  | .unaryOp op x => .unaryOp op x :: exprWalk x
  | .listLit es => .listLit es :: exprWalkList es

def exprWalkList : List Expr → List Expr
  | [] => []
  | e :: es => exprWalk e ++ exprWalkList es

end

mutual

/-- All statement nodes reachable from a statement, itself included
    (the statement part of `ast.walk`). -/
def stmtWalk : Stmt → List Stmt
  | .ifStmt t b e => .ifStmt t b e :: (stmtWalkList b ++ stmtWalkList e)
  | .whileStmt t b e => .whileStmt t b e :: (stmtWalkList b ++ stmtWalkList e)
  | .forStmt tg it b e => .forStmt tg it b e :: (stmtWalkList b ++ stmtWalkList e)
  | s => [s]

def stmtWalkList : List Stmt → List Stmt
  | [] => []
  | s :: ss => stmtWalk s ++ stmtWalkList ss

end

/-- The direct expression children of a statement node. -/
def stmtTopExprs : Stmt → List Expr
  | .exprStmt e => [e]
  | .assign ts v => ts ++ [v]
  | .annAssign t v => t :: (match v with | some e => [e] | none => [])
  | .ifStmt test _ _ => [test]
  | .whileStmt test _ _ => [test]
  | .forStmt tg it _ _ => [tg, it]
  | .importStmt _ => []
  | .importFrom _ _ => []
  | .passStmt => []

/-- Every statement node of a module, in walk order. -/
def allStmts (m : Module) : List Stmt := stmtWalkList m

/-- Every expression node of a module. -/
def allExprs (m : Module) : List Expr :=
  exprWalkList ((allStmts m).flatMap stmtTopExprs)

/-- `count_elif_chain`: how many `elif` occur in a chain starting at this
    `If` node — follow the orelse while it is exactly one `If` statement. -/
def count_elif_chain : Stmt → Nat
  | .ifStmt _ _ [.ifStmt t b e] => count_elif_chain (.ifStmt t b e) + 1
  | _ => 0

/-- The `end` node of the loop in `check_ast_structures`: follow the orelse
    while it is exactly one `If` statement. -/
def chain_end : Stmt → Stmt
  | .ifStmt _ _ [.ifStmt t b e] => chain_end (.ifStmt t b e)
  | s => s

def isIf : Stmt → Bool
  | .ifStmt _ _ _ => true
  | _ => false

/-- `has_final_else` evaluated at the chain's end node:
    `bool(end.orelse) and not isinstance(end.orelse[0], ast.If)`. -/
def has_final_else_at : Stmt → Bool
  | .ifStmt _ _ (e :: _) => !(isIf e)
  | _ => false

/-- Per-node test for the chained-conditional feature:
    `elif_count >= 2 and has_final_else`. -/
def node_chain_ok (s : Stmt) : Bool :=
  decide (2 ≤ count_elif_chain s) && has_final_else_at (chain_end s)

/-- Module-level chained-conditional feature of `check_ast_structures`. -/
def has_if_elif_else_with_two_elifs (m : Module) : Bool :=
  (allStmts m).any (fun s => isIf s && node_chain_ok s)

/-- `print("<s>")` as a statement, used to build concrete example programs. -/
def printStmt (s : String) : Stmt :=
  .exprStmt (.call (.name "print") [.constStr s])

/-- `if A: X` / `elif B: Y` / `elif C: Z` / `else: W`. -/
def chainExample : Module :=
  [.ifStmt (.name "A") [printStmt "X"]
    [.ifStmt (.name "B") [printStmt "Y"]
      [.ifStmt (.name "C") [printStmt "Z"]
        [printStmt "W"]]]]

/-- Same chain with the terminal `else` removed. -/
def chainNoElse : Module :=
  [.ifStmt (.name "A") [printStmt "X"]
    [.ifStmt (.name "B") [printStmt "Y"]
      [.ifStmt (.name "C") [printStmt "Z"] []]]]

/-- Same chain with `W` replaced by two (non-conditional) statements. -/
def chainTwoStmtW : Module :=
  [.ifStmt (.name "A") [printStmt "X"]
    [.ifStmt (.name "B") [printStmt "Y"]
      [.ifStmt (.name "C") [printStmt "Z"]
        [printStmt "W1", printStmt "W2"]]]]

/-! Structural-analyzer node predicates (`build_analysis`'s walk cases). -/

/-- A call whose func is an attribute named strip/lower/upper. -/
def is_string_method_call : Expr → Bool
  | .call (.attribute _ a) _ => a = "strip" || a = "lower" || a = "upper"
  | _ => false

/-- `random.choice(...)` or a bare `choice(...)` call. -/
def is_choice_call : Expr → Bool
  | .call (.attribute (.name "random") "choice") _ => true
  | .call (.name "choice") _ => true
  | _ => false

/-- `_is_booleanish`: Compare, BoolOp, or `not` UnaryOp. -/
def is_booleanish : Expr → Bool
  | .compare _ _ _ => true
  | .boolOp _ _ => true
  | .unaryOp .notOp _ => true
  | _ => false

def is_bool_const : Expr → Bool
  | .constBool _ => true
  | _ => false

/-- `print(...)` with a boolean literal or booleanish argument. -/
def prints_booleanish : Expr → Bool
  | .call (.name "print") args => args.any (fun a => is_bool_const a || is_booleanish a)
  | _ => false

/-- A call to the builtin `input`. -/
def is_input_call : Expr → Bool
  | .call (.name "input") _ => true
  | _ => false

/-- A nonempty list literal whose elements are all string constants. -/
def is_list_of_strings : Expr → Bool
  | .listLit es =>
      !es.isEmpty && es.all (fun e => match e with | .constStr _ => true | _ => false)
  | _ => false

def isCompare : Expr → Bool
  | .compare _ _ _ => true
  | _ => false

/-- A Compare node using `in` or `not in`. -/
def is_in_compare : Expr → Bool
  | .compare _ ops _ =>
      ops.any (fun o => match o with | .inOp => true | .notInOp => true | _ => false)
  | _ => false

def is_and_node : Expr → Bool
  | .boolOp .andOp _ => true
  | _ => false

def is_or_node : Expr → Bool
  | .boolOp .orOp _ => true
  | _ => false

def isFor : Stmt → Bool
  | .forStmt _ _ _ _ => true
  | _ => false

/-- An `If` whose direct body contains another `If`. -/
def is_nested_if_node : Stmt → Bool
  | .ifStmt _ body _ => body.any isIf
  | _ => false

def is_import_random_stmt : Stmt → Bool
  | .importStmt names => names.contains "random"
  | _ => false

def is_importfrom_choice_stmt : Stmt → Bool
  | .importFrom md names => md = "random" && (names.contains "choice" || names.contains "*")
  | _ => false

/-- Names assigned a string constant directly (`str_vars`). -/
def str_vars (m : Module) : List String :=
  (allStmts m).flatMap (fun s => match s with
    | .assign ts (.constStr _) =>
        ts.flatMap (fun t => match t with | .name id => [id] | _ => [])
    | _ => [])

/-- The value expressions of every Assign / AnnAssign (with a value). -/
def assigned_values (m : Module) : List Expr :=
  (allStmts m).flatMap (fun s => match s with
    | .assign _ v => [v]
    | .annAssign _ (some v) => [v]
    | _ => [])

/-- A reference to a string-typed variable or a string constant (`is_stry`). -/
def is_stry (svars : List String) : Expr → Bool
  | .constStr _ => true
  | .name id => svars.contains id
  | _ => false

/-- `print(...)` whose argument is a bare string-typed variable. -/
def is_print_of_str_var (svars : List String) : Expr → Bool
  | .call (.name "print") args =>
      args.any (fun a => match a with | .name id => svars.contains id | _ => false)
  | _ => false

/-- A `+` BinOp with a string-ish operand. -/
def is_str_concat (svars : List String) : Expr → Bool
  | .binOp l .add r => is_stry svars l || is_stry svars r
  | _ => false

def uses_random_choice (m : Module) : Bool := (allExprs m).any is_choice_call
def import_random (m : Module) : Bool := (allStmts m).any is_import_random_stmt
def importfrom_random_choice (m : Module) : Bool :=
  (allStmts m).any is_importfrom_choice_stmt

/-- `info["random_choice_ok"]`: a choice call plus either import form. -/
def random_choice_ok (m : Module) : Bool :=
  uses_random_choice m && (import_random m || importfrom_random_choice m)

/-- Number of `input()` call nodes in the whole tree (`len(info["calls_input"])`). -/
def count_input_calls (m : Module) : Nat :=
  ((allExprs m).filter is_input_call).length

/-- Number of `input()` call nodes occurring inside some Assign/AnnAssign value
    (`assigned_input_calls`; node identity is occurrence in the tree). -/
def count_assigned_input_calls (m : Module) : Nat :=
  ((exprWalkList (assigned_values m)).filter is_input_call).length

/-- The feature record produced by `build_analysis` on a parsed tree. -/
structure AnalysisInfo where
  has_input_saved : Bool
  has_input_unsaved : Bool
  str_vars : List String
  list_of_strings_exists : Bool
  import_random : Bool
  importfrom_random_choice : Bool
  uses_random_choice : Bool
  uses_in_operator : Bool
  uses_string_method : Bool
  has_for_loop : Bool
  has_nested_if : Bool
  uses_boolop_and : Bool
  uses_boolop_or : Bool
  has_comparison : Bool
  prints_boolean_literal_or_expr : Bool
  prints_string_var : Bool
  concatenates_strings : Bool
  random_choice_ok : Bool

/-- The tree-walking core of `build_analysis`. -/
def analyze (m : Module) : AnalysisInfo :=
  let svars := str_vars m
  let total := count_input_calls m
  let assigned := count_assigned_input_calls m
  { has_input_saved := decide (1 ≤ assigned)
    has_input_unsaved := decide (1 ≤ total - assigned)
    str_vars := svars
    list_of_strings_exists := (allExprs m).any is_list_of_strings
    import_random := import_random m
    importfrom_random_choice := importfrom_random_choice m
    uses_random_choice := uses_random_choice m
    uses_in_operator := (allExprs m).any is_in_compare
    uses_string_method := (allExprs m).any is_string_method_call
    has_for_loop := (allStmts m).any isFor
    has_nested_if := (allStmts m).any is_nested_if_node
    uses_boolop_and := (allExprs m).any is_and_node
    uses_boolop_or := (allExprs m).any is_or_node
    has_comparison := (allExprs m).any isCompare
    prints_boolean_literal_or_expr := (allExprs m).any prints_booleanish
    prints_string_var := (allExprs m).any (is_print_of_str_var svars)
    concatenates_strings := (allExprs m).any (is_str_concat svars)
    random_choice_ok := random_choice_ok m }

/-! Submissions, parsing, and the parse-failure path. -/

/-- A submission as the grader sees it: the text that `safe_read` returned
    and the outcome of `ast.parse` on that text (the parser itself is outside
    the model; a syntactically invalid text carries its diagnostic). -/
structure PySource where
  text : String
  parseResult : Except String Module

/-- `parse_tree`: empty/unreadable text gives a read error, a parser
    diagnostic `e` is wrapped as `SyntaxError: e`. -/
def parse_tree (sub : PySource) : Option Module × Option String :=
  if sub.text = "" then (none, some "Could not read file.")
  else match sub.parseResult with
    | .ok t => (some t, none)
    | .error e => (none, some ("SyntaxError: " ++ e))

/-- `build_analysis`: read check, parse check, then the tree walk. -/
def build_analysis (sub : PySource) : Except String AnalysisInfo :=
  if sub.text = "" then .error "Could not read the file."
  else match parse_tree sub with
    | (_, some err) => .error err
    | (some tree, none) => .ok (analyze tree)
    | (none, none) => .error ""  -- unreachable: parse_tree always sets one side

/-! Character-level text utilities (Python `str` operations used by the
    text-only checks, modelled over `List Char`). -/

/-- Python `\s` (`[ \t\n\r\f\v]`). -/
def isPySpace (c : Char) : Bool :=
  c = ' ' || c = '\t' || c = '\n' || c = '\r' || c = '\x0b' || c = '\x0c'

/-- Split on newline characters (`str.splitlines` for `\n`-separated text;
    like `str.split("\n")` it keeps a trailing empty segment). -/
def splitLinesCh : List Char → List (List Char)
  | [] => [[]]
  | c :: rest =>
    if c = '\n' then [] :: splitLinesCh rest
    else match splitLinesCh rest with
      | [] => [[c]]
      | l :: ls => (c :: l) :: ls

/-- Join lines back with newlines (`"\n".join`). -/
def joinLines : List (List Char) → List Char
  | [] => []
  | [l] => l
  | l :: ls => l ++ '\n' :: joinLines ls

/-- Does `hay` start with `nd`? -/
def charsStartWith : List Char → List Char → Bool
  | _, [] => true
  | [], _ :: _ => false
  | a :: hay, b :: nd => a = b && charsStartWith hay nd

/-- Does `nd` occur somewhere in `hay` (substring search, `in` on `str`)? -/
def charsContain : List Char → List Char → Bool
  | [], nd => nd.isEmpty
  | a :: hay, nd => charsStartWith (a :: hay) nd || charsContain hay nd

/-- `pat in hay` on strings. -/
def strContains (hay pat : String) : Bool :=
  charsContain hay.data pat.data

def lowerChars (cs : List Char) : List Char := cs.map Char.toLower

/-- `str.lower()`. -/
def lowerStr (s : String) : String := ⟨lowerChars s.data⟩

/-- Match `kw` at the head of `hay`, returning the rest. -/
def dropMatch : List Char → List Char → Option (List Char)
  | hay, [] => some hay
  | [], _ :: _ => none
  | a :: hay, b :: kw => if a = b then dropMatch hay kw else none

/-- `\s*:` — optional whitespace then a colon. -/
def wsThenColon : List Char → Bool
  | [] => false
  | c :: rest => if c = ':' then true else if isPySpace c then wsThenColon rest else false

/-- Does `kw` followed by `\s*:` match at the head of `hay`? -/
def markerHere (hay kw : List Char) : Bool :=
  match dropMatch hay kw with
  | some rest => wsThenColon rest
  | none => false

/-- `re.search(kw + "\s*:", hay)`: the marker matches at some position. -/
def hasMarker : List Char → List Char → Bool
  | [], kw => markerHere [] kw
  | a :: hay, kw => markerHere (a :: hay) kw || hasMarker hay kw

/-- `str.strip()` on a line. -/
def stripChars (l : List Char) : List Char :=
  ((l.dropWhile isPySpace).reverse.dropWhile isPySpace).reverse

/-- `textwrap.indent(s, "  ")`: two-space prefix on lines that contain
    non-whitespace. -/
def indentTwo (s : String) : String :=
  ⟨joinLines ((splitLinesCh s.data).map (fun l =>
    if l.any (fun c => !(isPySpace c)) then ' ' :: ' ' :: l else l))⟩

/-- Python `repr` of a list of ints: `[2, 5]`. -/
def natListRepr (l : List Nat) : String :=
  "[" ++ String.intercalate ", " (l.map toString) ++ "]"

/-! The rubric's check results and the text-only checks. -/

/-- One pass/fail item (`CheckResult`). -/
structure CheckResult where
  name : String
  passed : Bool
  message : String
deriving DecidableEq

instance : Inhabited CheckResult := ⟨⟨"", false, ""⟩⟩

/-- `check_file_exists`: the filesystem lookup is the boolean argument. -/
def check_file_exists (filename : String) (exists_ : Bool) : CheckResult :=
  ⟨"File named " ++ filename ++ " exists", exists_,
   "Create " ++ filename ++ " (exact name, no spaces)."⟩

/-- First 40 lines joined back with newlines. -/
def first40 (cs : List Char) : List Char :=
  joinLines ((splitLinesCh cs).take 40)

/-- `check_header_comment`: Program/Title (or any `#` comment), Name and Date
    markers, searched case-insensitively in the first 40 lines. -/
def check_header_comment (sub : PySource) : CheckResult :=
  if sub.text = "" then
    ⟨"Header includes title, name, date", false, "Could not read the file."⟩
  else
    let f := first40 sub.text.data
    let low := lowerChars f
    let has_title := hasMarker low "program".data || hasMarker low "title".data
                      || f.contains '#'
    let has_name := hasMarker low "name".data
    let has_date := hasMarker low "date".data
    ⟨"Header includes title, name, date", has_title && has_name && has_date,
     "Include header comments with Program/Title, Name, and Date near the top."⟩

/-- One-based numbers of the lines longer than `limit`. -/
def longLinesAux (limit k : Nat) : List (List Char) → List Nat
  | [] => []
  | l :: ls =>
    if limit < l.length then (k + 1) :: longLinesAux limit (k + 1) ls
    else longLinesAux limit (k + 1) ls

def long_line_numbers (cs : List Char) (limit : Nat) : List Nat :=
  longLinesAux limit 0 (splitLinesCh cs)

/-- `check_line_length` (default limit 100, strict `>` comparison). -/
def check_line_length (sub : PySource) (limit : Nat := 100) : CheckResult :=
  if sub.text = "" then
    ⟨"Line length ≤ " ++ toString limit ++ " chars", false, "Could not read the file."⟩
  else
    let long := long_line_numbers sub.text.data limit
    if long.isEmpty then ⟨"Line length ≤ " ++ toString limit ++ " chars", true, ""⟩
    else
      ⟨"Line length ≤ " ++ toString limit ++ " chars", false,
       "Lines over " ++ toString limit ++ " chars: " ++ natListRepr (long.take 5)
         ++ (if 5 < long.length then "..." else "")⟩

/-- Does a triple-quote block (`^\s*("""|''')(.|\n)+?\1`, multiline) start at
    the head of this line suffix? -/
def tripleHere (d cs : List Char) : Bool :=
  match dropMatch (cs.dropWhile isPySpace) d with
  | some (_ :: rest) => charsContain rest d
  | some [] => false
  | none => false

/-- The suffixes of `cs` that start just after a newline. -/
def lineStartsAux : List Char → List (List Char)
  | [] => []
  | c :: rest => if c = '\n' then rest :: lineStartsAux rest else lineStartsAux rest

def tripleQuoteDouble : List Char := ['"', '"', '"']
def tripleQuoteSingle : List Char := [Char.ofNat 39, Char.ofNat 39, Char.ofNat 39]

def has_top_string (cs : List Char) : Bool :=
  (cs :: lineStartsAux cs).any (fun tl =>
    tripleHere tripleQuoteDouble tl || tripleHere tripleQuoteSingle tl)

/-- `check_comments_present`: a `#` comment line with content, or a
    triple-quoted block. -/
def check_comments_present (sub : PySource) : CheckResult :=
  if sub.text = "" then
    ⟨"Comments / pseudocode present (Week 1–2)", false, "Could not read the file."⟩
  else
    let has_hash := (splitLinesCh sub.text.data).any (fun line =>
      let st := stripChars line
      (match st with | c :: _ => c = '#' | [] => false) && 1 < st.length)
    ⟨"Comments / pseudocode present (Week 1–2)",
     has_hash || has_top_string sub.text.data,
     "Add at least one comment or pseudocode block."⟩

/-! Structural checks over the parsed tree. -/

/-- `check_ast_structures`: standalone if, if/else, chained conditional with
    two elifs and a final else, and an `or` condition. -/
def check_ast_structures (sub : PySource) : CheckResult :=
  if sub.text = "" then
    ⟨"Uses required if/elif/else patterns and `or`", false, "Could not read the file."⟩
  else match parse_tree sub with
    | (_, some err) => ⟨"Python parses successfully", false, err⟩
    | (some tree, none) =>
        let has_if := (allStmts tree).any isIf
        let has_if_else := (allStmts tree).any (fun s =>
          match s with | .ifStmt _ _ (_ :: _) => true | _ => false)
        let two_elifs := has_if_elif_else_with_two_elifs tree
        let has_or := (allExprs tree).any is_or_node
        let missing :=
          (if has_if then [] else ["a standalone if"])
          ++ (if has_if_else then [] else ["an if/else"])
          ++ (if two_elifs then [] else ["an if/elif/else with ≥2 elifs"])
          ++ (if has_or then [] else ["a condition using `or`"])
        if missing.isEmpty then
          ⟨"Uses required if/elif/else patterns and `or`", true, ""⟩
        else
          ⟨"Uses required if/elif/else patterns and `or`", false,
           "Missing: " ++ String.intercalate ", " missing⟩
    | (none, none) => ⟨"Python parses successfully", false, ""⟩

/-- `check_input_both_ways` (2 items). -/
def check_input_both_ways (sub : PySource) : List CheckResult :=
  match build_analysis sub with
  | .error err =>
      [⟨"Input saved to a variable (Week 2)", false, err⟩,
       ⟨"Input also used without saving (Week 2)", false, err⟩]
  | .ok info =>
      [⟨"Input saved to a variable (Week 2)", info.has_input_saved,
        "Do something like: answer = input(\x27...\x27)"⟩,
       ⟨"Input also used without saving (Week 2)", info.has_input_unsaved,
        "Also call input(...) directly (e.g., print(input(\x27...\x27))) in a different place."⟩]

/-- `check_variables_and_strings` (3 items). -/
def check_variables_and_strings (sub : PySource) : List CheckResult :=
  match build_analysis sub with
  | .error err =>
      [⟨"Assign a string to a variable (Week 2)", false, err⟩,
       ⟨"Print a string variable (Week 2)", false, err⟩,
       ⟨"Concatenate strings (Week 2)", false, err⟩]
  | .ok info =>
      [⟨"Assign a string to a variable (Week 2)", decide (0 < info.str_vars.length),
        "Example: greeting = \x27Hello\x27"⟩,
       ⟨"Print a string variable (Week 2)", info.prints_string_var,
        "Example: print(greeting)"⟩,
       ⟨"Concatenate strings (Week 2)", info.concatenates_strings,
        "Use \x27+\x27 with strings or string vars, e.g., greeting + \x27, world\x27"⟩]

/-- `check_lists_and_randomness` (2 items). -/
def check_lists_and_randomness (sub : PySource) : List CheckResult :=
  match build_analysis sub with
  | .error err =>
      [⟨"Create a list of strings (Week 2)", false, err⟩,
       ⟨"Use random.choice() (with import) (Week 2)", false, err⟩]
  | .ok info =>
      [⟨"Create a list of strings (Week 2)", info.list_of_strings_exists,
        "Example: foods = [\x27pizza\x27,\x27taco\x27,\x27salad\x27]"⟩,
       ⟨"Use random.choice() (with import) (Week 2)", info.random_choice_ok,
        "Import random or from random import choice, then call random.choice(list) or choice(list)."⟩]

def check_in_operator (sub : PySource) : CheckResult :=
  match build_analysis sub with
  | .error err => ⟨"Use \x27in\x27 on strings/lists (Week 3)", false, err⟩
  | .ok info =>
      ⟨"Use \x27in\x27 on strings/lists (Week 3)", info.uses_in_operator,
       "Use \x27in\x27 or \x27not in\x27 in a condition."⟩

def check_string_methods (sub : PySource) : CheckResult :=
  match build_analysis sub with
  | .error err => ⟨"Use .strip() / .lower() / .upper() (Week 3)", false, err⟩
  | .ok info =>
      ⟨"Use .strip() / .lower() / .upper() (Week 3)", info.uses_string_method,
       "Call one of these on a string, e.g., name.strip().lower()."⟩

def check_for_loop (sub : PySource) : CheckResult :=
  match build_analysis sub with
  | .error err => ⟨"Use a for loop (Week 3)", false, err⟩
  | .ok info =>
      ⟨"Use a for loop (Week 3)", info.has_for_loop,
       "Add a for loop over a list or range(...)."⟩

def check_nested_conditionals (sub : PySource) : CheckResult :=
  match build_analysis sub with
  | .error err => ⟨"Nested conditionals (Week 3)", false, err⟩
  | .ok info =>
      ⟨"Nested conditionals (Week 3)", info.has_nested_if,
       "Place an if-statement inside another if-statement\x27s body."⟩

/-- `check_boolean_logic_and_comparisons` (3 items). -/
def check_boolean_logic_and_comparisons (sub : PySource) : List CheckResult :=
  match build_analysis sub with
  | .error err =>
      [⟨"Use \x27and\x27 or \x27or\x27 (Week 2–3)", false, err⟩,
       ⟨"Use a comparison like \x27==\x27 (Week 2–3)", false, err⟩,
       ⟨"Print a Boolean (literal or expression) (Week 2–3)", false, err⟩]
  | .ok info =>
      [⟨"Use \x27and\x27 or \x27or\x27 (Week 2–3)", info.uses_boolop_and || info.uses_boolop_or,
        "Include boolean logic in a condition."⟩,
       ⟨"Use a comparison like \x27==\x27 (Week 2–3)", info.has_comparison,
        "Compare values, e.g., color == \x27blue\x27."⟩,
       ⟨"Print a Boolean (literal or expression) (Week 2–3)", info.prints_boolean_literal_or_expr,
        "Do: print(True) / print(False) or print(name == \x27alex\x27)."⟩]

/-- The structural checks of the rubric: `check_ast_structures` plus every
    feature check that consumes `build_analysis`. -/
def structural_results (sub : PySource) : List CheckResult :=
  [check_ast_structures sub]
  ++ check_input_both_ways sub
  ++ check_variables_and_strings sub
  ++ check_lists_and_randomness sub
  ++ [check_in_operator sub, check_string_methods sub,
      check_for_loop sub, check_nested_conditionals sub]
  ++ check_boolean_logic_and_comparisons sub

/-! The execution harness (`run_program_with_inputs`).

    A submission's dynamic behaviour is an interaction tree: it may print,
    request an input, draw from ambient randomness, stop normally, stop via
    `sys.exit` (`SystemExit`), raise an ordinary `Exception` (carrying its
    trace text), or raise a `BaseException` outside the `Exception`
    hierarchy, such as `KeyboardInterrupt`.  The harness feeds the
    side-effect value list to the input requests, captures printed output in
    order, converts `SystemExit` into a normal finish (`except SystemExit:
    pass`) and an `Exception` into a returned trace (`except Exception`) —
    but a bare `BaseException` matches neither handler, so it escapes
    `run_program_with_inputs` and crashes the grading process. -/

inductive Prog where
  | halt : Prog
  | exit : Prog
  | fault (trace : String) : Prog
  | baseFault (trace : String) : Prog
  | print (s : String) (k : Prog) : Prog
  | input (k : String → Prog) : Prog
  | rand (k : Nat → Prog) : Prog

/-- What one harness run returns when it returns:
    `(stdout_text, error or None, input_calls)`. -/
structure RunTriple where
  output : String
  error : Option String
  inputCalls : Nat
deriving DecidableEq

/-- Run a behaviour against the mocked input list `vals`, oracle `g` (next
    index `ri`), accumulated call count and output.  `.ok` is the triple the
    harness returns: `SystemExit` ends the run normally, an `Exception` is
    captured into the error slot, and a request beyond `vals` is the mock's
    `StopIteration`, also an `Exception`.  `.error` is a `BaseException`
    outside `Exception` (e.g. `KeyboardInterrupt`): neither handler matches,
    so the raise propagates out of the harness. -/
def execProg : Prog → List String → (Nat → Nat) → Nat → Nat → String →
    Except String RunTriple
  | .halt, _, _, _, calls, out => .ok ⟨out, none, calls⟩
  | .exit, _, _, _, calls, out => .ok ⟨out, none, calls⟩
  | .fault m, _, _, _, calls, out => .ok ⟨out, some m, calls⟩
  | .baseFault m, _, _, _, _, _ => .error m
  | .print s k, vals, g, ri, calls, out => execProg k vals g ri calls (out ++ s)
  | .input _, [], _, _, calls, out => .ok ⟨out, some "StopIteration", calls + 1⟩
  | .input k, v :: rest, g, ri, calls, out => execProg (k v) rest g ri (calls + 1) out
  | .rand k, vals, g, ri, calls, out => execProg (k (g ri)) vals g (ri + 1) calls out

/-- The filler for extra input requests: `pad_value` if given, else the last
    scripted value, else the empty string. -/
def filler_value (inputs : List String) (pad_value : Option String) : String :=
  if inputs.isEmpty then pad_value.getD ""
  else pad_value.getD (inputs.getLastD "")

/-- `side_effect_values = list(inputs) + [filler] * max(0, int(pad_extra))`. -/
def side_effect_values (inputs : List String) (pad_extra : Int)
    (pad_value : Option String) : List String :=
  inputs ++ List.replicate (max 0 pad_extra).toNat (filler_value inputs pad_value)

/-- `run_program_with_inputs` (defaults `pad_extra=20`, `pad_value=None`);
    the oracle `g` is the ambient randomness of the process.  `.error` means
    the call did not return: an uncaught `BaseException` escaped it. -/
def run_program_with_inputs (p : Prog) (inputs : List String)
    (pad_extra : Int := 20) (pad_value : Option String := none)
    (g : Nat → Nat := fun _ => 0) : Except String RunTriple :=
  execProg p (side_effect_values inputs pad_extra pad_value) g 0 0 ""

def sample_inputs : List String := ["yes", "blue", "pizza", "goodbye"]

/-- The three dynamic items of `check_runtime_behavior` on a run result. -/
def runtime_results (r : RunTriple) : List CheckResult :=
  match r.error with
  | some err =>
      [⟨"Program executes without crashing", false,
        "Program crashed.\n" ++ indentTwo err⟩,
       ⟨"Asks at least 3 questions", false, "Program did not complete execution."⟩,
       ⟨"Uses the user\x27s input in a response", false, "Program did not complete execution."⟩]
  | none =>
      let qmarks := r.output.data.count '?'
      let asks_three := decide (3 ≤ qmarks) || decide (3 ≤ r.inputCalls)
      let used_input := sample_inputs.any (fun v => strContains (lowerStr r.output) (lowerStr v))
      [⟨"Program executes without crashing", true, ""⟩,
       ⟨"Asks at least 3 questions", asks_three,
        "Make sure you prompt the user 3+ times (use \x27?\x27)."⟩,
       ⟨"Uses the user\x27s input in a response", used_input,
        "Include the user\x27s answer in a printed line."⟩]

/-- `check_runtime_behavior`: run with the sample inputs, then judge; if the
    run raised past the harness, this check raises too. -/
def check_runtime_behavior (p : Prog) (g : Nat → Nat) :
    Except String (List CheckResult) :=
  match run_program_with_inputs p sample_inputs 20 none g with
  | .error e => .error e
  | .ok r => .ok (runtime_results r)

/-- The `RUBRIC` list: each entry yields the item(s) of one named check, in
    the order `grade_file` flattens them.  An exception escaping the runtime
    check (entry 4) aborts the whole grading of the file. -/
def rubric (fn : String) (exists_ : Bool) (sub : PySource) (p : Prog)
    (g : Nat → Nat) : Except String (List (List CheckResult)) :=
  match check_runtime_behavior p g with
  | .error e => .error e
  | .ok runtime =>
    .ok [ [check_file_exists fn exists_],
          [check_header_comment sub],
          [check_line_length sub],
          [check_ast_structures sub],
          runtime,
          [check_comments_present sub],
          check_input_both_ways sub,
          check_variables_and_strings sub,
          check_lists_and_randomness sub,
          [check_in_operator sub],
          [check_string_methods sub],
          [check_for_loop sub],
          [check_nested_conditionals sub],
          check_boolean_logic_and_comparisons sub ]

/-- A behaviour that requests `n` inputs, echoing each to the output. -/
def askEcho : Nat → Prog
  | 0 => .halt
  | n + 1 => .input (fun v => .print v (askEcho n))

/-- Runs that finish by a controlled `sys.exit` when fed `vals`. -/
inductive EndsByExit : Prog → List String → Prop where
  | exit (vals) : EndsByExit .exit vals
  | print (s k vals) : EndsByExit k vals → EndsByExit (.print s k) vals
  | input (k v rest) : EndsByExit (k v) rest → EndsByExit (.input k) (v :: rest)
  | rand (k vals) : (∀ r, EndsByExit (k r) vals) → EndsByExit (.rand k) vals

/-- Behaviours containing no use of true randomness. -/
inductive NoRand : Prog → Prop where
  | halt : NoRand .halt
  | exit : NoRand .exit
  | fault (m) : NoRand (.fault m)
  | baseFault (m) : NoRand (.baseFault m)
  | print (s k) : NoRand k → NoRand (.print s k)
  | input (k) : (∀ v, NoRand (k v)) → NoRand (.input k)

/-! Claim-side definitions and concrete example programs. -/

/-- Modelled from the claim's words, for comparison with `random_choice_ok`:
    the import part is satisfied only by a whole-module import of `random`
    or a direct import of `choice` *by name* (a star import does not count). -/
def importfrom_choice_by_name (m : Module) : Bool :=
  (allStmts m).any (fun s => match s with
    | .importFrom md names => md = "random" && names.contains "choice"
    | _ => false)

/-- The claimed pass condition for the pseudo-random-selection check. -/
def random_choice_ok_claimed (m : Module) : Bool :=
  uses_random_choice m && (import_random m || importfrom_choice_by_name m)

/-- `choice(["a", "b"])` with no randomness import at all. -/
def choiceNoImport : Module :=
  [.exprStmt (.call (.name "choice") [.listLit [.constStr "a", .constStr "b"]])]

/-- The same call after adding `import random`. -/
def choiceWithImport : Module :=
  .importStmt ["random"] :: choiceNoImport

/-- The same call after adding `from random import *`. -/
def choiceStarImport : Module :=
  .importFrom "random" ["*"] :: choiceNoImport

/-- Concatenation of a list of strings, head first. -/
def concatAll : List String → String
  | [] => ""
  | s :: ss => s ++ concatAll ss

/-- A single line of exactly 100 characters. -/
def hundredLine : String := ⟨List.replicate 100 'a'⟩

/-- A behaviour that reads one input and echoes it. -/
def echoBot : Prog := .input (fun v => .print v .halt)

/-! Theorems. -/

/-- C1 counterexample: on `if A: X elif B: Y elif C: Z else: W1; W2` —
    the claimed variant where `W` is replaced by two statements — the
    chained-conditional feature is still detected (`elif_count = 2` and the
    first statement of the terminal else is not a conditional), whereas the
    claim asserts that this replacement makes the feature false. -/
theorem c1_chained_conditional_counterexample :
    has_if_elif_else_with_two_elifs chainExample = true ∧
    has_if_elif_else_with_two_elifs chainTwoStmtW = true := by
  exact ⟨by decide, by decide⟩

/-- C1 (amended): the chained-conditional feature is detected iff some
    conditional's linear chain — following else-branches that are exactly one
    conditional statement — has at least two links and ends in a nonempty
    else-branch whose first statement is not a conditional.  The if/elif/elif/
    else example is detected; removing the terminal else loses the feature;
    replacing the terminal `W` by two non-conditional statements keeps it. -/
theorem c1_chained_conditional :
    (∀ m : Module, has_if_elif_else_with_two_elifs m = true ↔
      ∃ s, s ∈ allStmts m ∧ isIf s = true ∧ 2 ≤ count_elif_chain s ∧
        has_final_else_at (chain_end s) = true)
    ∧ has_if_elif_else_with_two_elifs chainExample = true
    ∧ has_if_elif_else_with_two_elifs chainNoElse = false
    ∧ has_if_elif_else_with_two_elifs chainTwoStmtW = true := by
  refine ⟨fun m => ?_, by decide, by decide, by decide⟩
  simp [has_if_elif_else_with_two_elifs, List.any_eq_true, node_chain_ok,
        Bool.and_eq_true, decide_eq_true_iff]

/-- C2 counterexample: a file whose first line is the comment `# hello` has
    comment text near the top, yet the header check fails (no name marker and
    no date marker), refuting the claimed "or at minimum some comment text"
    pass condition. -/
theorem c2_header_counterexample :
    (check_header_comment ⟨"# hello", .ok []⟩).passed = false := by decide

/-- C2 (amended): for readable nonempty text, the header check passes iff a
    name marker and a date marker occur in the first 40 lines and, in
    addition, a program/title marker or at least some `#` comment text occurs
    there; comment text alone is not sufficient. -/
theorem c2_header_check (t : String) (pr : Except String Module) (h : t ≠ "") :
    (check_header_comment ⟨t, pr⟩).passed = true ↔
      (hasMarker (lowerChars (first40 t.data)) "name".data = true ∧
       hasMarker (lowerChars (first40 t.data)) "date".data = true ∧
       (hasMarker (lowerChars (first40 t.data)) "program".data = true ∨
        hasMarker (lowerChars (first40 t.data)) "title".data = true ∨
        (first40 t.data).contains '#' = true)) := by
  simp only [check_header_comment, if_neg h, Bool.and_eq_true, Bool.or_eq_true]
  tauto

/-- C2 witness: a file with `# Name:` and `# Date:` comments passes. -/
theorem c2_header_check_witness :
    ("# Name: a\n# Date: b" : String) ≠ "" ∧
    (check_header_comment ⟨"# Name: a\n# Date: b", .ok []⟩).passed = true :=
  ⟨by decide, (c2_header_check "# Name: a\n# Date: b" (.ok []) (by decide)).mpr (by decide)⟩

/-- Helper: the collected long-line numbers are empty iff every line is
    within the limit. -/
theorem longLinesAux_eq_nil_iff (limit : Nat) (ls : List (List Char)) :
    ∀ k, (longLinesAux limit k ls = [] ↔ ∀ l ∈ ls, l.length ≤ limit) := by
  induction ls with
  | nil => intro k; simp [longLinesAux]
  | cons l ls ih =>
    intro k
    simp only [longLinesAux, List.forall_mem_cons]
    by_cases hl : limit < l.length
    · simp only [if_pos hl]
      constructor
      · intro hcontra; cases hcontra
      · rintro ⟨h1, -⟩; omega
    · simp only [if_neg hl, ih (k + 1)]
      constructor
      · intro hall; exact ⟨by omega, hall⟩
      · rintro ⟨-, hall⟩; exact hall

/-- C10 counterexample: an empty (but successfully read) file has no line
    over 100 characters, yet the check fails with a read error — `if not src`
    treats empty content as unreadable — refuting the claimed iff over every
    readable file. -/
theorem c10_line_length_counterexample :
    (check_line_length ⟨"", .ok []⟩).passed = false ∧
    (∀ l ∈ splitLinesCh ("" : String).data, l.length ≤ 100) := by
  exact ⟨by decide, by decide⟩

/-- C10 (amended): for every readable file with nonempty content the check
    passes iff no line exceeds 100 characters (strict bound: a line of
    exactly 100 characters passes), and on failure the message lists the
    1-based numbers of at most the first five offending lines. -/
theorem c10_line_length :
    (∀ (t : String) (pr : Except String Module), t ≠ "" →
      ((check_line_length ⟨t, pr⟩).passed = true ↔
        ∀ l ∈ splitLinesCh t.data, l.length ≤ 100)
      ∧ (long_line_numbers t.data 100 ≠ [] →
          check_line_length ⟨t, pr⟩ =
            ⟨"Line length ≤ 100 chars", false,
             "Lines over 100 chars: "
               ++ natListRepr ((long_line_numbers t.data 100).take 5)
               ++ (if 5 < (long_line_numbers t.data 100).length then "..." else "")⟩))
    ∧ (check_line_length ⟨hundredLine, .ok []⟩).passed = true := by
  refine ⟨fun t pr h => ⟨?_, ?_⟩, by decide⟩
  · rw [show (check_line_length ⟨t, pr⟩).passed
        = (long_line_numbers t.data 100).isEmpty by
        simp only [check_line_length, if_neg h]
        by_cases hl : (long_line_numbers t.data 100).isEmpty <;> simp [hl]]
    rw [List.isEmpty_iff]
    exact longLinesAux_eq_nil_iff 100 (splitLinesCh t.data) 0
  · intro hne
    simp only [check_line_length, if_neg h, List.isEmpty_iff, if_neg hne]
    rfl

/-- C10 witness: a two-line file with a 150-character line fails and names
    line 2 in its message. -/
theorem c10_line_length_witness :
    (("ok\n" ++ hundredLine ++ hundredLine) ≠ "") ∧
    check_line_length ⟨"ok\n" ++ hundredLine ++ hundredLine, .ok []⟩ =
      ⟨"Line length ≤ 100 chars", false, "Lines over 100 chars: [2]"⟩ :=
  ⟨by decide,
   (((c10_line_length.1) ("ok\n" ++ hundredLine ++ hundredLine) (.ok [])
      (by decide)).2 (by decide)).trans (by decide)⟩

/-- C3 counterexample: with `from random import *` and a bare `choice(...)`
    call the code's check passes, although neither a whole-module import nor
    a by-name import of the selection function is present, so the claimed
    pass condition is false at this input. -/
theorem c3_random_choice_counterexample :
    random_choice_ok choiceStarImport = true ∧
    random_choice_ok_claimed choiceStarImport = false := by
  exact ⟨by decide, by decide⟩

/-- C3 (amended): the pseudo-random-selection check passes iff the submission
    contains a "choice"-style call and imports the randomness capability —
    a whole-module import of `random`, an import of `choice` by name, or a
    star import from `random`.  Without any such import the check fails, and
    adding `import random` alone flips it to pass. -/
theorem c3_random_choice :
    (∀ m : Module, random_choice_ok m = true ↔
      ((∃ e, e ∈ allExprs m ∧ is_choice_call e = true) ∧
       ((∃ s, s ∈ allStmts m ∧ is_import_random_stmt s = true) ∨
        (∃ s, s ∈ allStmts m ∧ is_importfrom_choice_stmt s = true))))
    ∧ (∀ (t : String) (m : Module), t ≠ "" →
        (check_lists_and_randomness ⟨t, .ok m⟩)[1]? =
          some ⟨"Use random.choice() (with import) (Week 2)", random_choice_ok m,
                "Import random or from random import choice, then call random.choice(list) or choice(list)."⟩)
    ∧ random_choice_ok choiceNoImport = false
    ∧ random_choice_ok choiceWithImport = true := by
  refine ⟨fun m => ?_, fun t m h => ?_, by decide, by decide⟩
  · simp [random_choice_ok, uses_random_choice, import_random,
          importfrom_random_choice, List.any_eq_true]
  · simp [check_lists_and_randomness, build_analysis, parse_tree, if_neg h, analyze]

/-- C3 witness: with `import random` present the check item is the passing
    one. -/
theorem c3_random_choice_witness :
    ("x" : String) ≠ "" ∧
    (check_lists_and_randomness ⟨"x", .ok choiceWithImport⟩)[1]? =
      some ⟨"Use random.choice() (with import) (Week 2)", true,
            "Import random or from random import choice, then call random.choice(list) or choice(list)."⟩ :=
  ⟨by decide,
   ((c3_random_choice.2.1) "x" choiceWithImport (by decide)).trans (by decide)⟩

/-- C4 counterexample: a submission that raises a `BaseException` outside the
    `Exception` hierarchy (e.g. `KeyboardInterrupt`) raises an uncaught
    runtime fault, yet the fault DOES propagate out of the harness — neither
    `except SystemExit` nor `except Exception` matches — so the runtime check
    does not return three failing results at all, refuting the claimed
    universal non-propagation. -/
theorem c4_runtime_fault_counterexample :
    run_program_with_inputs (Prog.baseFault "KeyboardInterrupt") sample_inputs 20 none
        (fun _ => 0) = .error "KeyboardInterrupt"
    ∧ check_runtime_behavior (Prog.baseFault "KeyboardInterrupt") (fun _ => 0) =
        .error "KeyboardInterrupt" :=
  ⟨rfl, rfl⟩

/-- C4 (amended): when the uncaught fault is one the harness can catch — an
    ordinary `Exception`, i.e. the run returns a triple whose error slot
    holds the trace — it never propagates: `check_runtime_behavior` returns
    exactly three failing items, the crash item carrying the (indented) full
    trace and the two dependent items the generic "did not complete
    execution" message, and every non-runtime rubric entry is identical no
    matter which behaviour ran.  A fault outside the `Exception` hierarchy,
    however, propagates out of the harness. -/
theorem c4_runtime_fault (p : Prog) (g : Nat → Nat) (r : RunTriple) (e : String)
    (h : run_program_with_inputs p sample_inputs 20 none g = .ok r)
    (he : r.error = some e) :
    check_runtime_behavior p g =
      .ok [⟨"Program executes without crashing", false, "Program crashed.\n" ++ indentTwo e⟩,
           ⟨"Asks at least 3 questions", false, "Program did not complete execution."⟩,
           ⟨"Uses the user\x27s input in a response", false, "Program did not complete execution."⟩]
    ∧ (∀ trace : String,
        run_program_with_inputs (Prog.baseFault trace) sample_inputs 20 none g =
          .error trace)
    ∧ ∀ (fn : String) (ex : Bool) (sub : PySource) (p' : Prog) (g' : Nat → Nat)
        (i : Nat) (groups groups' : List (List CheckResult)),
        i ≠ 4 → rubric fn ex sub p g = .ok groups →
        rubric fn ex sub p' g' = .ok groups' →
        groups[i]? = groups'[i]? := by
  have h1 : check_runtime_behavior p g =
      .ok [⟨"Program executes without crashing", false, "Program crashed.\n" ++ indentTwo e⟩,
           ⟨"Asks at least 3 questions", false, "Program did not complete execution."⟩,
           ⟨"Uses the user\x27s input in a response", false, "Program did not complete execution."⟩] := by
    simp [check_runtime_behavior, h, runtime_results, he]
  refine ⟨h1, fun trace => rfl, ?_⟩
  intro fn ex sub p' g' i groups groups' hi hg hg'
  simp only [rubric, h1] at hg
  cases hcb : check_runtime_behavior p' g' with
  | error e' =>
    rw [rubric, hcb] at hg'
    exact Except.noConfusion hg'
  | ok rt' =>
    simp only [rubric, hcb, Except.ok.injEq] at hg hg'
    subst hg
    subst hg'
    match i with
    | 0 => rfl
    | 1 => rfl
    | 2 => rfl
    | 3 => rfl
    | 4 => exact absurd rfl hi
    | 5 => rfl
    | 6 => rfl
    | 7 => rfl
    | 8 => rfl
    | 9 => rfl
    | 10 => rfl
    | 11 => rfl
    | 12 => rfl
    | 13 => rfl
    | n + 14 => rfl

/-- C4 witness: a behaviour that immediately raises an `Exception` with trace
    `boom`. -/
theorem c4_runtime_fault_witness :
    run_program_with_inputs (Prog.fault "boom") sample_inputs 20 none
        (fun _ => 0) = .ok ⟨"", some "boom", 0⟩
    ∧ check_runtime_behavior (Prog.fault "boom") (fun _ => 0) =
        .ok [⟨"Program executes without crashing", false, "Program crashed.\n  boom"⟩,
             ⟨"Asks at least 3 questions", false, "Program did not complete execution."⟩,
             ⟨"Uses the user\x27s input in a response", false, "Program did not complete execution."⟩] :=
  ⟨by rfl,
   ((c4_runtime_fault (Prog.fault "boom") (fun _ => 0) ⟨"", some "boom", 0⟩ "boom"
       (by rfl) (by rfl)).1).trans (by rfl)⟩

/-- Helper: any message of the form `SyntaxError: d` contains the
    parse-error indicator. -/
theorem strContains_syntaxError (d : String) :
    strContains ("SyntaxError: " ++ d) "SyntaxError" = true := by
  cases d with
  | mk cs => rfl

/-- C5: for a syntactically invalid submission (nonempty text whose parse
    fails with diagnostic `d`), every structural check fails and its message
    contains the parse-error indicator; the file-existence check still passes
    for an existing file; and the text-only checks (header, line length,
    comments) are untouched by the parse outcome. -/
theorem c5_parse_failure (t d : String) (h : t ≠ "") :
    (∀ r ∈ structural_results ⟨t, .error d⟩,
        r.passed = false ∧ strContains r.message "SyntaxError" = true)
    ∧ (∀ fn : String, (check_file_exists fn true).passed = true)
    ∧ (∀ pr : Except String Module,
        check_header_comment ⟨t, pr⟩ = check_header_comment ⟨t, .error d⟩
        ∧ check_line_length ⟨t, pr⟩ = check_line_length ⟨t, .error d⟩
        ∧ check_comments_present ⟨t, pr⟩ = check_comments_present ⟨t, .error d⟩) := by
  have hb : build_analysis ⟨t, .error d⟩ = .error ("SyntaxError: " ++ d) := by
    simp [build_analysis, parse_tree, if_neg h]
  have ha : check_ast_structures ⟨t, .error d⟩ =
      ⟨"Python parses successfully", false, "SyntaxError: " ++ d⟩ := by
    simp [check_ast_structures, parse_tree, if_neg h]
  refine ⟨?_, fun fn => rfl, fun pr => ⟨rfl, rfl, rfl⟩⟩
  intro r hr
  simp only [structural_results, ha, hb, check_input_both_ways,
    check_variables_and_strings, check_lists_and_randomness, check_in_operator,
    check_string_methods, check_for_loop, check_nested_conditionals,
    check_boolean_logic_and_comparisons, List.cons_append, List.nil_append,
    List.mem_cons, List.not_mem_nil, or_false] at hr
  rcases hr with rfl | rfl | rfl | rfl | rfl | rfl | rfl | rfl | rfl | rfl | rfl | rfl | rfl | rfl | rfl <;>
    exact ⟨rfl, strContains_syntaxError d⟩

/-- C5 witness: the invalid one-token program `if`. -/
theorem c5_parse_failure_witness :
    ("if" : String) ≠ "" ∧
    (∀ r ∈ structural_results ⟨"if", .error "invalid syntax"⟩,
        r.passed = false ∧ strContains r.message "SyntaxError" = true) :=
  ⟨by decide, (c5_parse_failure "if" "invalid syntax" (by decide)).1⟩

/-- Helper: a behaviour that requests `n` inputs receives the first `n`
    mocked values in order, finishes cleanly, and is counted `n` times,
    whenever the mocked list is long enough. -/
theorem execProg_askEcho (n : Nat) :
    ∀ (vals : List String) (g : Nat → Nat) (ri calls : Nat) (out : String),
      n ≤ vals.length →
      execProg (askEcho n) vals g ri calls out =
        .ok ⟨out ++ concatAll (vals.take n), none, calls + n⟩ := by
  induction n with
  | zero =>
    intro vals g ri calls out _
    simp [askEcho, execProg, concatAll]
  | succ n ih =>
    intro vals g ri calls out hlen
    cases vals with
    | nil => simp at hlen
    | cons v vs =>
      show execProg (askEcho n) vs g ri (calls + 1) (out ++ v) = _
      rw [ih vs g ri (calls + 1) (out ++ v) (by simpa using hlen)]
      simp [concatAll, String.append_assoc]
      omega

/-- C6: with the default padding policy (`pad_extra = 20`, `pad_value`
    absent), a submission may request up to 20 inputs beyond the scripted
    list: every extra request is served the filler — the last scripted value,
    or the empty string when nothing was scripted — the run completes without
    fault, and the returned input-request count includes the filler-served
    requests. -/
theorem c6_input_padding (inputs : List String) (n : Nat) (g : Nat → Nat)
    (h : n ≤ inputs.length + 20) :
    run_program_with_inputs (askEcho n) inputs 20 none g =
      .ok ⟨concatAll ((side_effect_values inputs 20 none).take n), none, n⟩
    ∧ (∀ i, inputs.length ≤ i → i < inputs.length + 20 →
        (side_effect_values inputs 20 none)[i]? = some (filler_value inputs none))
    ∧ filler_value inputs none =
        (match inputs.getLast? with | some v => v | none => "") := by
  have hside : (side_effect_values inputs 20 none).length = inputs.length + 20 := by
    simp [side_effect_values]
  refine ⟨?_, ?_, ?_⟩
  · have := execProg_askEcho n (side_effect_values inputs 20 none) g 0 0 ""
      (by omega)
    simpa [run_program_with_inputs] using this
  · intro i h1 h2
    have hrepl : side_effect_values inputs 20 none =
        inputs ++ List.replicate 20 (filler_value inputs none) := by
      norm_num [side_effect_values]
      decide
    rw [hrepl, List.getElem?_append_right h1, List.getElem?_replicate,
        if_pos (by omega)]
  · cases inputs with
    | nil => rfl
    | cons a l =>
      simp only [filler_value, List.isEmpty_cons, Option.getD_none,
        List.getLastD_eq_getLast?, Bool.false_eq_true, if_false]
      cases hv : (a :: l).getLast? <;> simp [hv]

/-- C6 witness: one scripted input, three requests — the second and third are
    served the filler `hi` and all three are counted. -/
theorem c6_input_padding_witness :
    (3 ≤ (["hi"] : List String).length + 20) ∧
    run_program_with_inputs (askEcho 3) ["hi"] 20 none (fun _ => 0) =
      .ok ⟨"hihihi", none, 3⟩ :=
  ⟨by decide,
   ((c6_input_padding ["hi"] 3 (fun _ => 0) (by decide)).1).trans (by rfl)⟩

/-- Helper: a run that finishes by `sys.exit` returns a triple with an empty
    error slot. -/
theorem execProg_endsByExit {p : Prog} {vals : List String}
    (h : EndsByExit p vals) :
    ∀ (g : Nat → Nat) (ri calls : Nat) (out : String),
      ∃ (out' : String) (calls' : Nat),
        execProg p vals g ri calls out = .ok ⟨out', none, calls'⟩ := by
  induction h with
  | exit vals => intro g ri calls out; exact ⟨out, calls, rfl⟩
  | print s k vals _ ih => intro g ri calls out; exact ih g ri calls (out ++ s)
  | input k v rest _ ih => intro g ri calls out; exact ih g ri (calls + 1) out
  | rand k vals _ ih => intro g ri calls out; exact ih (g ri) g (ri + 1) calls out

/-- C7: a submission that ends its sample-input run with a controlled
    `sys.exit` is a normal, successful run: the harness returns a triple
    with no fault trace, and the "executes without crashing" item passes. -/
theorem c7_controlled_exit (p : Prog) (g : Nat → Nat)
    (h : EndsByExit p (side_effect_values sample_inputs 20 none)) :
    (∃ r : RunTriple, run_program_with_inputs p sample_inputs 20 none g = .ok r
        ∧ r.error = none)
    ∧ ∃ items : List CheckResult, check_runtime_behavior p g = .ok items
        ∧ items[0]? = some ⟨"Program executes without crashing", true, ""⟩ := by
  obtain ⟨out', calls', hr⟩ := execProg_endsByExit h g 0 0 ""
  have hrun : run_program_with_inputs p sample_inputs 20 none g =
      .ok ⟨out', none, calls'⟩ := hr
  refine ⟨⟨⟨out', none, calls'⟩, hrun, rfl⟩,
          runtime_results ⟨out', none, calls'⟩, ?_, ?_⟩
  · simp [check_runtime_behavior, hrun]
  · simp [runtime_results]

/-- C7 witness: print a farewell, then exit. -/
theorem c7_controlled_exit_witness :
    EndsByExit (Prog.print "Bye" Prog.exit) (side_effect_values sample_inputs 20 none)
    ∧ ∃ items : List CheckResult,
        check_runtime_behavior (Prog.print "Bye" Prog.exit) (fun _ => 0) = .ok items
        ∧ items[0]? = some ⟨"Program executes without crashing", true, ""⟩ :=
  ⟨EndsByExit.print _ _ _ (EndsByExit.exit _),
   (c7_controlled_exit (Prog.print "Bye" Prog.exit) (fun _ => 0)
      (EndsByExit.print _ _ _ (EndsByExit.exit _))).2⟩

/-- C8: on a fault-free sample run (the harness returned a triple with no
    trace), the "asks at least 3 questions" item passes iff the larger of
    the `?` count in the captured output and the issued input-request count
    is at least 3. -/
theorem c8_min_prompts (p : Prog) (g : Nat → Nat) (r : RunTriple)
    (h : run_program_with_inputs p sample_inputs 20 none g = .ok r)
    (he : r.error = none) :
    check_runtime_behavior p g = .ok (runtime_results r)
    ∧ ((runtime_results r)[1]?.map CheckResult.passed = some true ↔
        3 ≤ max (r.output.data.count '?') r.inputCalls) := by
  constructor
  · simp [check_runtime_behavior, h]
  · simp [runtime_results, he, Bool.or_eq_true, decide_eq_true_iff, le_max_iff]

/-- C8 witness: an output with three question marks passes the item. -/
theorem c8_min_prompts_witness :
    run_program_with_inputs (Prog.print "a? b? c?" Prog.halt) sample_inputs 20 none
        (fun _ => 0) = .ok ⟨"a? b? c?", none, 0⟩
    ∧ (runtime_results ⟨"a? b? c?", none, 0⟩)[1]?.map CheckResult.passed = some true :=
  ⟨by rfl,
   ((c8_min_prompts (Prog.print "a? b? c?" Prog.halt) (fun _ => 0)
       ⟨"a? b? c?", none, 0⟩ (by rfl) (by rfl)).2).mpr (by decide)⟩

/-- Helper: a behaviour with no randomness runs identically under any two
    oracles. -/
theorem execProg_noRand {p : Prog} (h : NoRand p) :
    ∀ (vals : List String) (g1 g2 : Nat → Nat) (ri1 ri2 calls : Nat) (out : String),
      execProg p vals g1 ri1 calls out = execProg p vals g2 ri2 calls out := by
  induction h with
  | halt => intros; rfl
  | exit => intros; rfl
  | fault m => intros; rfl
  | baseFault m => intros; rfl
  | print s k _ ih =>
    intro vals g1 g2 ri1 ri2 calls out
    exact ih vals g1 g2 ri1 ri2 calls (out ++ s)
  | input k _ ih =>
    intro vals g1 g2 ri1 ri2 calls out
    cases vals with
    | nil => rfl
    | cons v rest => exact ih v rest g1 g2 ri1 ri2 (calls + 1) out

/-- C9: a deterministic submission (no use of true randomness) run twice by
    the harness with the same scripted inputs produces the same captured
    output, fault slot and consumed-input count, whatever the ambient
    randomness of each run. -/
theorem c9_deterministic (p : Prog) (h : NoRand p) (inputs : List String)
    (pad_extra : Int) (pad_value : Option String) (g1 g2 : Nat → Nat) :
    run_program_with_inputs p inputs pad_extra pad_value g1 =
      run_program_with_inputs p inputs pad_extra pad_value g2 :=
  execProg_noRand h (side_effect_values inputs pad_extra pad_value) g1 g2 0 0 0 ""

/-- C9 witness: an echo behaviour under two different oracles. -/
theorem c9_deterministic_witness :
    NoRand echoBot ∧
    run_program_with_inputs echoBot ["hey"] 20 none (fun n => n) =
      run_program_with_inputs echoBot ["hey"] 20 none (fun n => n * 7 + 3) :=
  ⟨NoRand.input _ (fun _ => NoRand.print _ _ NoRand.halt),
   c9_deterministic echoBot (NoRand.input _ (fun _ => NoRand.print _ _ NoRand.halt))
     ["hey"] 20 none (fun n => n) (fun n => n * 7 + 3)⟩

end Autograde
